import Mathlib

/-!
Verification of the HireEdgeAI Resume Session Engine against its
natural-language specification.

The repository ships the Next.js frontend (`src/frontend`): the scoring
modal, the builder page and the typed API client.  The backend session
engine (section parser, version history, three scorers, session store)
is exposed only through its REST surface; where a property is decided by
that engine, the corresponding definition below is modelled from the
specification and marked as such in its doc comment.  Everything else is
a direct shallow embedding of the TypeScript in `src/frontend`.

JavaScript string primitives (trim, split, toLowerCase, endsWith, ...)
are re-implemented by structural recursion over the character list of a
`String`, so that every definition evaluates inside the kernel.
-/

/-! ## JavaScript string primitives over character lists -/

/-- Split a character list at every character satisfying `p`
(the separators are dropped; consecutive separators and separators at
the ends produce empty pieces). -/
def splitBy (p : Char → Bool) : List Char → List (List Char)
  | [] => [[]]
  | c :: cs =>
    if p c then [] :: splitBy p cs
    else
      match splitBy p cs with
      | [] => [[c]]
      | piece :: rest => (c :: piece) :: rest

/-- Characters of a string with leading and trailing whitespace removed. -/
def trimChars (cs : List Char) : List Char :=
  ((cs.dropWhile Char.isWhitespace).reverse.dropWhile Char.isWhitespace).reverse

/-- JavaScript `String.prototype.trim`. -/
def jsTrim (s : String) : String := ⟨trimChars s.data⟩

/-- JavaScript `String.prototype.toLowerCase` (over the ASCII range used
here). -/
def jsToLower (s : String) : String := ⟨s.data.map Char.toLower⟩

/-- Whether the first list starts with the second. -/
def listStartsWith : List Char → List Char → Bool
  | _, [] => true
  | [], _ :: _ => false
  | a :: as, b :: bs => a == b && listStartsWith as bs

/-- JavaScript `String.prototype.endsWith`. -/
def strEndsWith (s suffixPart : String) : Bool :=
  listStartsWith s.data.reverse suffixPart.data.reverse

/-- The lines of a source text (`source.split("\n")`). -/
def splitLines (s : String) : List String :=
  (splitBy (fun c => c == '\n') s.data).map (fun cs => (⟨cs⟩ : String))

/-- Join lines back with newlines. -/
def joinLines (ls : List String) : String :=
  ⟨List.intercalate ['\n'] (ls.map (fun l => l.data))⟩

/-- Word count as computed by the builder page
(`jobDescriptionInput.trim().split(/\s+/).filter(w => w).length`,
`src/frontend` builder page, job-description save handler and the
words counter under the textarea). -/
def wordCount (text : String) : Nat :=
  ((splitBy Char.isWhitespace (trimChars text.data)).filter (fun w => w ≠ [])).length

/-- Tokens of a free-text body: lower-cased maximal alphanumeric runs.
Modelled from the spec: the JDMatch scorer "tokenizes the resume body the
same way" as the job description (lower-cased, split on non-word
characters, empty pieces dropped). -/
def resumeTokens (text : String) : List String :=
  ((splitBy (fun c => ¬ c.isAlphanum) (text.data.map Char.toLower)).filter
      (fun w => w ≠ [])).map (fun cs => (⟨cs⟩ : String))

/-- Worker for `dedupFirst`: drops every token already seen. -/
def dedupFirstAux (seen : List String) : List String → List String
  | [] => []
  | x :: xs =>
    if seen.contains x then dedupFirstAux seen xs
    else x :: dedupFirstAux (x :: seen) xs

/-- Deduplication keeping the first occurrence of each token, as a
JavaScript `Set` iteration does. -/
def dedupFirst (l : List String) : List String := dedupFirstAux [] l

/-- Division of `a` by `b` rounded to the nearest integer
(`floor (a / b + 1 / 2)`). -/
def roundDiv (a b : Nat) : Nat := (2 * a + b) / (2 * b)

/-! ## Frontend data model (`src/frontend/types/index.ts`) -/

/-- The `Section` interface of `src/frontend/types/index.ts` (lines 8-15):
name, raw content, optional inferred type tag, optional line range,
optional preview. -/
structure Section where
  name : String
  content : String
  type : Option String := none
  start_line : Option Nat := none
  end_line : Option Nat := none
  preview : Option String := none
deriving DecidableEq, Repr

/-- The `ResumeScores.ats_universal` payload
(`src/frontend/types/index.ts`, lines 24-40). -/
structure ATSUniversal where
  score : Nat
  rating : String
  summary : String
  section_score : Nat
  metrics_score : Nat
  action_verbs_score : Nat
  structure_score : Nat
  design_score : Nat
  metrics_count : Nat
  action_verbs_count : Nat
  word_count : Nat
  found_sections : List String
  missing_sections : List String
  design_issues : List String
  recommendations : List String
deriving DecidableEq, Repr

/-- The field names of `ResumeScores.ats_universal`, in declaration order
(`src/frontend/types/index.ts`, lines 24-40). -/
def atsUniversalFields : List String :=
  ["score", "rating", "summary",
   "section_score", "metrics_score", "action_verbs_score",
   "structure_score", "design_score",
   "metrics_count", "action_verbs_count", "word_count",
   "found_sections", "missing_sections", "design_issues",
   "recommendations"]

/-- The sub-score components of a score payload: every field named
`*_score`; the overall `score` field is not a sub-score. -/
def subScoreFields (fields : List String) : List String :=
  fields.filter (fun f => strEndsWith f "_score")

/-- The `ResumeScores.hbps` payload (`src/frontend/types/index.ts`,
lines 41-52). -/
structure HBPS where
  score : Nat
  rating : String
  summary : String
  first_impression_score : Nat
  scannability_score : Nat
  impact_numbers_score : Nat
  credibility_score : Nat
  clarity_score : Nat
  what_recruiter_sees : List String
  recommendations : List String
deriving DecidableEq, Repr

/-- The `ResumeScores.ats_jd` payload (`src/frontend/types/index.ts`,
lines 53-59). -/
structure ATSJD where
  score : Nat
  rating : String
  summary : String
  matched_keywords : List String
  missing_keywords : List String
deriving DecidableEq, Repr

/-- The `ResumeScores` interface (`src/frontend/types/index.ts`,
lines 23-60): each of the three scorer payloads is optional. -/
structure ResumeScores where
  ats_universal : Option ATSUniversal
  hbps : Option HBPS
  ats_jd : Option ATSJD
deriving DecidableEq, Repr

/-! ## Scoring modal (`src/frontend/components/resume/ResumeScoringModal.tsx`) -/

/-- `getScoreColor` from `ResumeScoringModal.tsx` (lines 20-25): the
colour tier ladder over a numeric score. -/
def getScoreColor (score : Nat) : String :=
  if score ≥ 85 then "text-green-600"
  else if score ≥ 70 then "text-green-500"
  else if score ≥ 55 then "text-yellow-500"
  else "text-red-500"

/-- The tab identifiers the scoring modal offers, in order
(`ResumeScoringModal.tsx`, lines 263-266): one tab per scorer payload
present in the result. -/
def scoreTabs (s : ResumeScores) : List String :=
  (if s.ats_universal.isSome then ["ats"] else [])
    ++ (if s.hbps.isSome then ["hbps"] else [])
    ++ (if s.ats_jd.isSome then ["ats_jd"] else [])

/-- The matched keywords actually rendered by `renderATSJD`
(`ResumeScoringModal.tsx`, lines 224-240): the block renders only when
the list is non-empty, and shows `matched_keywords.slice(0, 15)`. -/
def displayedMatchedKeywords (s : ResumeScores) : List String :=
  match s.ats_jd with
  | none => []
  | some jd =>
    if jd.matched_keywords.length > 0 then jd.matched_keywords.take 15 else []

/-- The missing keywords actually rendered by `renderATSJD`
(`ResumeScoringModal.tsx`, lines 241-257): the block renders only when
the list is non-empty, and shows `missing_keywords.slice(0, 10)`. -/
def displayedMissingKeywords (s : ResumeScores) : List String :=
  match s.ats_jd with
  | none => []
  | some jd =>
    if jd.missing_keywords.length > 0 then jd.missing_keywords.take 10 else []

/-- Modelled from the spec: the backend's rating-label ladder, not in
`src/` ("rating label is a threshold ladder (≥85 Excellent, ≥70 Good,
≥55 Fair, else Needs Work)", spec §4.4). -/
def getRating (score : Nat) : String :=
  if score ≥ 85 then "Excellent"
  else if score ≥ 70 then "Good"
  else if score ≥ 55 then "Fair"
  else "Needs Work"

/-! ## JDMatch scorer (modelled from the spec, §4.4) -/

/-- Modelled from the spec: the stopword lexicon of the JDMatch
tokenizer, a read-only process-wide configuration not given verbatim in
the spec.  The spec's JDMatch scenario (§8) fixes its behaviour on the
job description "Looking for a Python developer with AWS experience":
"looking", "for", "a", "with", "developer" and "experience" are
filtered while "python" and "aws" survive as keywords, so the lexicon
holds common English stopwords plus generic job-posting vocabulary. -/
def stopwords : List String :=
  ["a", "an", "the", "and", "or", "but", "for", "with", "to", "of",
   "in", "on", "at", "is", "are", "was", "were", "be", "been", "being",
   "as", "by", "from", "this", "that", "these", "those", "it", "its",
   "we", "you", "our", "your", "their", "they", "will", "would",
   "have", "has", "had", "can", "could", "should", "must", "may",
   "looking", "seeking", "hiring", "developer", "engineer", "candidate",
   "experience", "experienced", "skills", "years", "work", "working",
   "team", "role", "position", "job", "strong", "ability", "knowledge",
   "required", "preferred", "plus", "etc", "about", "who", "what",
   "when", "where", "how", "across", "within", "using", "use"]

/-- Modelled from the spec: the JDMatch keyword tokenizer ("tokenizes
the job description into a candidate keyword set (stopword-filtered,
lower-cased, deduplicated, capped at a max count e.g. 50)", spec §4.4). -/
def tokenizeKeywords (text : String) : List String :=
  (dedupFirst ((resumeTokens text).filter (fun w => ¬ stopwords.contains w))).take 50

/-- Modelled from the spec: the JDMatch scorer ("matched = intersection,
missing = keyword set minus matched; overall score =
|matched| / |keyword set| * 100, rounded", spec §4.4).  The payload
shape is the `ResumeScores.ats_jd` interface of
`src/frontend/types/index.ts`. -/
def scoreJDMatch (jd resume : String) : ATSJD :=
  let keys := tokenizeKeywords jd
  let bodyTokens := resumeTokens resume
  let matched := keys.filter (fun k => bodyTokens.contains k)
  let missing := keys.filter (fun k => ¬ bodyTokens.contains k)
  let overall := if keys.length = 0 then 0 else roundDiv (100 * matched.length) keys.length
  { score := overall
    rating := getRating overall
    summary := "Keyword match against the job description"
    matched_keywords := matched
    missing_keywords := missing }

/-! ## Universal-ATS and Human-Scan scorers (modelled from the spec, §4.4) -/

/-- Modelled from the spec: the canonical resume section names used as
the ATS coverage checklist ("canonical section names (e.g. Experience,
Education, Skills, Summary)", spec §4.4 and glossary). -/
def canonicalSections : List String :=
  ["summary", "experience", "education", "skills"]

/-- Modelled from the spec: the fixed action-verb lexicon of the
Universal-ATS scorer (spec §4.4); the exact list is process-wide
configuration not given verbatim. -/
def actionVerbs : List String :=
  ["led", "built", "developed", "designed", "implemented", "created",
   "managed", "improved", "launched", "delivered", "reduced",
   "increased", "optimized", "automated", "architected", "spearheaded"]

/-- Count of quantified-metric tokens: tokens containing a digit
(modelled from the spec's "regex matches for numeric patterns
(percentages, currency, counts)", spec §4.4). -/
def countMetrics (text : String) : Nat :=
  ((resumeTokens text).filter (fun w => w.data.any (fun c => c.isDigit))).length

/-- Modelled from the spec: the Universal-ATS scorer (spec §4.4):
coverage = found/expected * 100 capped at 100; metric and action-verb
densities normalized and capped; overall a fixed-weight combination
(40% coverage, 35% metrics, 25% verbs) rounded; rating from the
threshold ladder.  The structure and design sub-scores appear in the
frontend payload type but are not described by the spec; they are
filled with neutral values and no theorem relies on them. -/
def scoreUniversal (latexBody : String) : ATSUniversal :=
  let toks := resumeTokens latexBody
  let found := canonicalSections.filter (fun c => toks.contains c)
  let missing := canonicalSections.filter (fun c => ¬ toks.contains c)
  let coverage := min 100 (roundDiv (100 * found.length) canonicalSections.length)
  let metricsCount := countMetrics latexBody
  let words := toks.length
  let metricsScore := min 100 (roundDiv (100 * 40 * metricsCount) (max 1 words))
  let verbCount := (toks.filter (fun w => actionVerbs.contains w)).length
  let verbScore := min 100 (roundDiv (100 * 40 * verbCount) (max 1 words))
  let overall := roundDiv (40 * coverage + 35 * metricsScore + 25 * verbScore) 100
  { score := overall
    rating := getRating overall
    summary := "Generic ATS compatibility"
    section_score := coverage
    metrics_score := metricsScore
    action_verbs_score := verbScore
    structure_score := 100
    design_score := 100
    metrics_count := metricsCount
    action_verbs_count := verbCount
    word_count := words
    found_sections := found
    missing_sections := missing
    design_issues := []
    recommendations := missing.map (fun m => "Add a section named " ++ m) }

/-- Modelled from the spec: the Human-Scan scorer (spec §4.4),
approximating a recruiter's 6-second read; sub-scores combined with the
same weighted-combination and threshold-ladder pattern.  Only its
presence in the score result matters to the theorems below. -/
def scoreHBPS (latexBody : String) : HBPS :=
  let toks := resumeTokens latexBody
  let words := toks.length
  let impact := min 100 (roundDiv (100 * 40 * countMetrics latexBody) (max 1 words))
  let overall := roundDiv (25 * 70 + 25 * 70 + 25 * impact + 25 * 70) 100
  { score := overall
    rating := getRating overall
    summary := "Six-second recruiter scan"
    first_impression_score := 70
    scannability_score := 70
    impact_numbers_score := impact
    credibility_score := 70
    clarity_score := 70
    what_recruiter_sees := []
    recommendations := [] }

/-! ## Version history (modelled from the spec, §4.2) -/

/-- Modelled from the spec: the per-session history capacity bound
("Capacity bound N (e.g. 50)", spec §4.2). -/
def MAX_HISTORY : Nat := 50

/-- Modelled from the spec: "two ordered stacks (past, future) of
document snapshots, plus current snapshot" (spec §3). -/
structure VersionHistory where
  past : List String
  current : String
  future : List String
deriving DecidableEq, Repr

namespace VersionHistory

/-- Modelled from the spec: `record(newDocument)` "pushes current
document onto past, sets current = newDocument, clears future"
(spec §4.2); when past would exceed the capacity bound the oldest
entries are dropped silently. -/
def record (h : VersionHistory) (newDocument : String) : VersionHistory :=
  { past := (h.current :: h.past).take MAX_HISTORY
    current := newDocument
    future := [] }

/-- Modelled from the spec: `undo()` "fails with NoHistory if past is
empty; else pushes current onto future, pops top of past into current,
returns the restored document" (spec §4.2). -/
def undo (h : VersionHistory) : Option (String × VersionHistory) :=
  match h.past with
  | [] => none
  | p :: rest => some (p, { past := rest, current := p, future := h.current :: h.future })

/-- Modelled from the spec: `redo()` is symmetric to `undo` (spec §4.2). -/
def redo (h : VersionHistory) : Option (String × VersionHistory) :=
  match h.future with
  | [] => none
  | f :: rest => some (f, { past := h.current :: h.past, current := f, future := rest })

/-- Modelled from the spec: `canUndo()` boolean query (spec §4.2). -/
def canUndo (h : VersionHistory) : Bool := !h.past.isEmpty

/-- Modelled from the spec: `canRedo()` boolean query (spec §4.2). -/
def canRedo (h : VersionHistory) : Bool := !h.future.isEmpty

end VersionHistory

/-! ## Section parser (modelled from the spec, §4.1) -/

/-- The LaTeX section command that opens a structural heading. -/
def sectionCmd : String := "\\section\x7b"

/-- Modelled from the spec: heading detection ("a structural heading is
a line matching a markup-specific section command pattern; the section
name is the command's argument, trimmed", spec §4.1). -/
def sectionNameOf (line : String) : Option String :=
  let t := trimChars line.data
  if listStartsWith t sectionCmd.data then
    some ⟨trimChars ((t.drop sectionCmd.data.length).takeWhile (fun c => c ≠ '\x7d'))⟩
  else none

/-- Modelled from the spec: the optional type tag "inferred from the
heading" (spec §3). -/
def inferSectionType (name : String) : Option String :=
  let n := jsToLower name
  if n = "experience" ∨ n = "work experience" ∨ n = "employment" then some "experience"
  else if n = "education" then some "education"
  else if n = "skills" ∨ n = "technical skills" then some "skills"
  else if n = "summary" ∨ n = "professional summary" ∨ n = "objective" then some "summary"
  else none

/-- Build the section list from the heading positions: each section runs
from its heading line (inclusive) to the line before the next heading,
or the end of the document (spec §4.1). -/
def buildSections (lines : List String) : List (Nat × String) → List Section
  | [] => []
  | (i, n) :: rest =>
    let lastLine :=
      match rest with
      | [] => lines.length - 1
      | (j, _) :: _ => j - 1
    { name := n
      content := joinLines ((lines.drop i).take (lastLine + 1 - i))
      type := inferSectionType n
      start_line := some i
      end_line := some lastLine
      preview := none } :: buildSections lines rest

/-- Modelled from the spec: `parse(source) -> ordered sequence of
Section` (spec §4.1).  Total; a document with no recognizable structural
heading yields a single section named "Full Document" spanning the
entire source. -/
def parse (source : String) : List Section :=
  let lines := splitLines source
  let headings := lines.enum.filterMap (fun p => (sectionNameOf p.2).map (fun n => (p.1, n)))
  if headings.isEmpty then
    [{ name := "Full Document"
       content := source
       type := none
       start_line := some 0
       end_line := some (lines.length - 1)
       preview := none }]
  else
    buildSections lines headings

/-! ## Session operations (modelled from the spec, §3, §4.5, §6) -/

/-- Modelled from the spec: the error taxonomy of §7, restricted to the
variants the theorems below need. -/
inductive ApiError where
  | validationError (msg : String)
  | notFound
  | noHistory
deriving DecidableEq, Repr

/-- Modelled from the spec: a session's state ("current document source,
job description (optional text, ≤1000 words), selected section name,
chat log, history", spec §3). -/
structure Session where
  sessionId : String
  latex : String
  jobDescription : Option String := none
  selectedSection : Option String := none
  history : VersionHistory
deriving DecidableEq, Repr

/-- Modelled from the spec: `setJobDescription(id, text) -> fails
ValidationError if word count > 1000` (spec §6); on success the text is
stored as the session's job description. -/
def setJobDescription (s : Session) (text : String) : Except ApiError Session :=
  if wordCount text > 1000 then
    .error (.validationError "job description exceeds 1000 words")
  else
    .ok { s with jobDescription := some text }

/-- Modelled from the spec: `score(id) -> {universal, humanScan,
jdMatch?}` (spec §6).  The universal and human-scan scorers always run;
the JDMatch scorer runs only when a job description is present,
"otherwise this scorer is absent from the result, not zero" (spec §4.4).
The frontend client records the same contract
(`src/frontend/types/index.ts`, `calculateScores`: "Backend always
returns ats_universal and hbps, and ats_jd if job_description is set in
session"). -/
def scoreSession (s : Session) : ResumeScores :=
  { ats_universal := some (scoreUniversal s.latex)
    hbps := some (scoreHBPS s.latex)
    ats_jd := s.jobDescription.map (fun jd => scoreJDMatch jd s.latex) }

/-! ## Builder page state machine (`src/frontend` resume-builder page) -/

/-- The React state of the resume-builder page, one field per `useState`
hook of the page component (builder page, top of the component body). -/
structure PageState where
  sessionId : Option String := none
  pdfUrl : Option String := none
  isLoading : Bool := false
  isCompiling : Bool := false
  chatMessage : String := ""
  scores : Option ResumeScores := none
  isScoreModalOpen : Bool := false
  isLoadingScores : Bool := false
  sections : List Section := []
  isSidebarOpen : Bool := false
  canUndo : Bool := false
  canRedo : Bool := false
  versionInfo : String := ""
  jobDescription : String := ""
  jobDescriptionInput : String := ""
deriving DecidableEq, Repr

/-- The initial page state: every `useState` initializer of the builder
page (`useState(false)` for the flags, empty strings and lists, `null`
session and scores). -/
def initialPageState : PageState := {}

/-- Observable side effects of the page handlers: toast notifications
and the REST calls issued through the API client. -/
inductive Effect where
  | toastError (msg : String)
  | toastSuccess (msg : String)
  | toastInfo (msg : String)
  | apiCreateSession
  | apiCompile (sessionId : String)
  | apiGetSections (sessionId : String)
  | apiGetJobDescription (sessionId : String)
  | apiSetJobDescription (sessionId jd : String)
  | apiClearJobDescription (sessionId : String)
  | apiCalculateScores (sessionId : String)
  | apiUpload (sessionId fileName : String)
deriving DecidableEq, Repr

/-- Recognizer for the `setJobDescription` REST call among effects. -/
def Effect.isSetJD : Effect → Bool
  | .apiSetJobDescription _ _ => true
  | _ => false

/-- Recognizer for an error toast among effects. -/
def Effect.isErrorToast : Effect → Bool
  | .toastError _ => true
  | _ => false

/-- `handleSaveJobDescription` of the builder page: rejects a missing
session, then an input of more than 1000 words, then an input that is
empty after trimming — each before the `setJobDescription` API call;
otherwise saves and re-reads the job description to verify it
(`verify` stands for the re-read response's `job_description` field). -/
def handleSaveJobDescription (s : PageState) (verify : Option String) :
    PageState × List Effect :=
  match s.sessionId with
  | none => (s, [.toastError "Session not initialized"])
  | some sid =>
    if wordCount s.jobDescriptionInput > 1000 then
      (s, [.toastError "Job description must be 1000 words or less"])
    else
      let jdToSave := jsTrim s.jobDescriptionInput
      if jdToSave = "" then
        (s, [.toastError "Job description cannot be empty"])
      else
        let calls := [Effect.apiSetJobDescription sid jdToSave,
                      Effect.apiGetJobDescription sid]
        match verify with
        | some jd =>
          if jsTrim jd ≠ "" then
            ({ s with jobDescription := jd, jobDescriptionInput := jd },
             calls ++ [.toastSuccess "Job description saved successfully"])
          else
            (s, calls ++ [.toastError "Job description save verification failed - please try again"])
        | none =>
          (s, calls ++ [.toastError "Job description save verification failed - please try again"])

/-- The user-visible events of the builder page; network responses the
corresponding handler awaits are carried as event parameters. -/
inductive PageEvent where
  | initSession (newSessionId : String) (pdf : Option String)
      (secs : Option (List Section)) (jd : Option String)
  | initSessionFailed
  | saveJobDescription (verify : Option String)
  | clearJobDescriptionOk
  | clearJobDescriptionFailed
  | checkScores (result : Option ResumeScores)
  | closeScoreModal
  | downloadPDF (ok : Bool)
  | downloadLaTeX (ok : Bool)
  | fileUploadOk (fileName : String) (secs : Option (List Section)) (pdf : Option String)
  | fileUploadFailed (fileName : String)
  | openSidebar
  | closeSidebar
  | typeChatMessage (m : String)
  | typeJobDescriptionInput (t : String)
  | clickUndo
  | clickRedo

/-- One step of the builder page: the state updates and effects each
handler of the page performs.  `clickUndo` and `clickRedo` are the
sidebar's `onUndo`/`onRedo` props, which the page wires to bare
`toast('... not yet implemented')` calls. -/
def step (e : PageEvent) (s : PageState) : PageState × List Effect :=
  match e with
  | .initSession sid pdf secs jd =>
    ({ s with sessionId := some sid
              isCompiling := false
              pdfUrl := pdf.orElse (fun _ => s.pdfUrl)
              sections := secs.getD s.sections
              jobDescription := jd.getD s.jobDescription
              jobDescriptionInput := jd.getD s.jobDescriptionInput },
     [.apiCreateSession, .apiCompile sid, .apiGetSections sid, .apiGetJobDescription sid])
  | .initSessionFailed =>
    (s, [.apiCreateSession, .toastError "Failed to initialize resume builder"])
  | .saveJobDescription verify => handleSaveJobDescription s verify
  | .clearJobDescriptionOk =>
    match s.sessionId with
    | none => (s, [])
    | some sid =>
      ({ s with jobDescription := "", jobDescriptionInput := "" },
       [.apiClearJobDescription sid, .toastSuccess "Job description cleared"])
  | .clearJobDescriptionFailed =>
    match s.sessionId with
    | none => (s, [])
    | some sid => (s, [.apiClearJobDescription sid, .toastError "Failed to clear job description"])
  | .checkScores result =>
    match s.sessionId with
    | none => (s, [])
    | some sid =>
      match result with
      | some sc =>
        ({ s with isScoreModalOpen := true, isLoadingScores := false, scores := some sc },
         [.apiCalculateScores sid])
      | none =>
        ({ s with isScoreModalOpen := true, isLoadingScores := false },
         [.apiCalculateScores sid, .toastError "Failed to calculate scores"])
  | .closeScoreModal => ({ s with isScoreModalOpen := false }, [])
  | .downloadPDF ok =>
    match s.sessionId with
    | none => (s, [])
    | some _ =>
      (s, [if ok then .toastSuccess "Resume downloaded" else .toastError "Failed to download PDF"])
  | .downloadLaTeX ok =>
    match s.sessionId with
    | none => (s, [])
    | some _ =>
      (s, [if ok then .toastSuccess "LaTeX downloaded" else .toastError "Failed to download LaTeX"])
  | .fileUploadOk fileName secs pdf =>
    match s.sessionId with
    | none => (s, [.toastError "Session not initialized"])
    | some sid =>
      ({ s with isSidebarOpen := false
                isCompiling := false
                sections := secs.getD s.sections
                pdfUrl := pdf.orElse (fun _ => s.pdfUrl) },
       [.apiUpload sid fileName,
        .toastSuccess ("File " ++ fileName ++ " uploaded successfully"),
        .apiGetSections sid, .apiCompile sid])
  | .fileUploadFailed fileName =>
    match s.sessionId with
    | none => (s, [.toastError "Session not initialized"])
    | some sid => (s, [.apiUpload sid fileName, .toastError "Upload failed"])
  | .openSidebar => ({ s with isSidebarOpen := true }, [])
  | .closeSidebar => ({ s with isSidebarOpen := false }, [])
  | .typeChatMessage m => ({ s with chatMessage := m }, [])
  | .typeJobDescriptionInput t => ({ s with jobDescriptionInput := t }, [])
  | .clickUndo => (s, [.toastInfo "Undo not yet implemented"])
  | .clickRedo => (s, [.toastInfo "Redo not yet implemented"])

/-- Fold a sequence of page events from the initial page state. -/
def runEvents (events : List PageEvent) : PageState :=
  events.foldl (fun s e => (step e s).1) initialPageState

/-- The sidebar disables its undo button exactly when the `canUndo`
prop is false (`src/frontend/components/ui/Sidebar.tsx`, lines 100-108:
`disabled={!canUndo}`). -/
def sidebarUndoDisabled (s : PageState) : Bool := !s.canUndo

/-- The sidebar disables its redo button exactly when the `canRedo`
prop is false (`src/frontend/components/ui/Sidebar.tsx`, lines 109-116:
`disabled={!canRedo}`). -/
def sidebarRedoDisabled (s : PageState) : Bool := !s.canRedo

/-- A concrete session used by the witness theorems. -/
def sampleSession : Session :=
  { sessionId := "s-1", latex := "hello"
    history := { past := [], current := "hello", future := [] } }

/-- A concrete JDMatch payload used by the witness theorems. -/
def sampleATSJD : ATSJD :=
  { score := 50, rating := "Fair", summary := "keyword match",
    matched_keywords := ["python", "sql"], missing_keywords := ["aws"] }

/-- A concrete score result used by the witness theorems. -/
def sampleScores : ResumeScores :=
  { ats_universal := none, hbps := none, ats_jd := some sampleATSJD }

/-! ## Theorems -/

/-- C1: for every session, the result of `score()` contains the JDMatch
(`ats_jd`) variant if and only if a job description is set on that
session; when no job description is set the variant is absent from the
result (and hence from the modal's tabs), not present with a zero
score. -/
theorem ats_jd_present_iff_job_description (s : Session) :
    ((scoreSession s).ats_jd.isSome ↔ s.jobDescription.isSome) ∧
    (s.jobDescription = none → (scoreSession s).ats_jd = none) ∧
    ("ats_jd" ∈ scoreTabs (scoreSession s) ↔ s.jobDescription.isSome) := by
  cases h : s.jobDescription <;> simp [scoreSession, scoreTabs, h]

/-- Witness for C1 at a concrete session without a job description. -/
theorem ats_jd_present_iff_job_description_witness :
    (scoreSession sampleSession).ats_jd = none :=
  (ats_jd_present_iff_job_description sampleSession).2.1 rfl

/-- C2: for every session and text, `setJobDescription` fails with a
`ValidationError` when the word count of the text exceeds 1000, and
succeeds, storing the text as the session's job description, when the
word count is at most 1000. -/
theorem setJobDescription_validation (s : Session) (text : String) :
    (wordCount text > 1000 →
      setJobDescription s text =
        .error (.validationError "job description exceeds 1000 words")) ∧
    (wordCount text ≤ 1000 →
      setJobDescription s text = .ok { s with jobDescription := some text }) := by
  refine ⟨fun h => ?_, fun h => ?_⟩
  · rw [setJobDescription, if_pos h]
  · rw [setJobDescription, if_neg (by omega)]

/-- Witness for C2 at a concrete short job description. -/
theorem setJobDescription_validation_witness :
    wordCount "Senior Python developer" ≤ 1000 ∧
    setJobDescription sampleSession "Senior Python developer" =
      .ok { sampleSession with jobDescription := some "Senior Python developer" } :=
  ⟨by decide, (setJobDescription_validation sampleSession _).2 (by decide)⟩

/-- C3: for every integer score in [0,100], the rating is "Excellent"
iff the score is at least 85, "Good" iff it lies in [70,85), "Fair" iff
it lies in [55,70), and "Needs Work" otherwise; boundaries resolve
upward, so exactly 85 is "Excellent", and the frontend colour ladder
(`getScoreColor`) puts the top tier at the same `>= 85` boundary. -/
theorem rating_threshold_ladder (s : Nat) (hs : s ≤ 100) :
    (getRating s = "Excellent" ↔ 85 ≤ s) ∧
    (getRating s = "Good" ↔ 70 ≤ s ∧ s < 85) ∧
    (getRating s = "Fair" ↔ 55 ≤ s ∧ s < 70) ∧
    (getRating s = "Needs Work" ↔ s < 55) ∧
    (getScoreColor s = "text-green-600" ↔ 85 ≤ s) := by
  unfold getRating getScoreColor
  split_ifs with h1 h2 h3 <;>
    refine ⟨?_, ?_, ?_, ?_, ?_⟩ <;> simp_all <;> omega

/-- Witness for C3 at the boundary value 85. -/
theorem rating_threshold_ladder_witness :
    (85 ≤ 100) ∧ (getRating 85 = "Excellent" ↔ 85 ≤ 85) :=
  ⟨by decide, (rating_threshold_ladder 85 (by decide)).1⟩

/-- C4 counterexample: the `ats_universal` payload does not carry
exactly the three sub-scores section-coverage, quantified-metrics and
action-verb-usage — the declared type carries five `*_score` sub-score
fields. -/
theorem ats_universal_three_subscores_refuted :
    ¬ (subScoreFields atsUniversalFields =
        ["section_score", "metrics_score", "action_verbs_score"]) := by decide

/-- Helper: a 40/35/25-weighted rounded combination of scores that are
each at most 100 is itself at most 100. -/
theorem roundDiv_weighted_le (c m v : Nat) (hc : c ≤ 100) (hm : m ≤ 100) (hv : v ≤ 100) :
    roundDiv (40 * c + 35 * m + 25 * v) 100 ≤ 100 := by
  unfold roundDiv
  refine Nat.lt_succ_iff.mp ?_
  rw [Nat.div_lt_iff_lt_mul (by norm_num)]
  omega

/-- C4 (amended): every UniversalATS score result carries an overall
score in [0,100] (a natural number, bounded by 100 for every document
body), a rating label, a summary, exactly the five sub-scores section,
metrics, action-verbs, structure and design, the metric, action-verb
and word counts, the found and missing canonical sections, the design
issues, and free-text recommendations. -/
theorem ats_universal_field_shape :
    subScoreFields atsUniversalFields =
      ["section_score", "metrics_score", "action_verbs_score",
       "structure_score", "design_score"] ∧
    "score" ∈ atsUniversalFields ∧ "rating" ∈ atsUniversalFields ∧
    "summary" ∈ atsUniversalFields ∧
    "metrics_count" ∈ atsUniversalFields ∧
    "action_verbs_count" ∈ atsUniversalFields ∧
    "word_count" ∈ atsUniversalFields ∧
    "found_sections" ∈ atsUniversalFields ∧
    "missing_sections" ∈ atsUniversalFields ∧
    "design_issues" ∈ atsUniversalFields ∧
    "recommendations" ∈ atsUniversalFields ∧
    (∀ body : String, (scoreUniversal body).score ≤ 100) := by
  refine ⟨by decide, by decide, by decide, by decide, by decide, by decide,
    by decide, by decide, by decide, by decide, by decide, fun body => ?_⟩
  simp only [scoreUniversal]
  exact roundDiv_weighted_le _ _ _ (Nat.min_le_left _ _) (Nat.min_le_left _ _)
    (Nat.min_le_left _ _)

/-- C5: for every run of the JDMatch scorer over a non-empty keyword
set, the overall score equals round(|matched| / |keyword set| * 100);
in particular, for the job description "Looking for a Python developer
with AWS experience" and any resume whose tokens contain "python" but
not "aws", matched is exactly ["python"], missing is exactly ["aws"],
and the score is 50. -/
theorem jd_match_score_formula (resume : String)
    (hp : "python" ∈ resumeTokens resume) (ha : "aws" ∉ resumeTokens resume) :
    (∀ jd r, tokenizeKeywords jd ≠ [] →
      (scoreJDMatch jd r).score =
        roundDiv (100 * (scoreJDMatch jd r).matched_keywords.length)
          (tokenizeKeywords jd).length) ∧
    (scoreJDMatch "Looking for a Python developer with AWS experience" resume).matched_keywords
      = ["python"] ∧
    (scoreJDMatch "Looking for a Python developer with AWS experience" resume).missing_keywords
      = ["aws"] ∧
    (scoreJDMatch "Looking for a Python developer with AWS experience" resume).score = 50 := by
  have hp' : (resumeTokens resume).contains "python" = true :=
    List.elem_iff.mpr hp
  have ha' : (resumeTokens resume).contains "aws" = false := by
    rw [Bool.eq_false_iff]
    intro hc
    exact ha (List.elem_iff.mp hc)
  have hkeys : tokenizeKeywords "Looking for a Python developer with AWS experience"
      = ["python", "aws"] := by decide
  refine ⟨fun jd r hk => ?_, ?_, ?_, ?_⟩
  · simp only [scoreJDMatch]
    rw [if_neg (fun h0 => hk (List.length_eq_zero.mp h0))]
  · simp [scoreJDMatch, hkeys, hp, ha]
  · simp [scoreJDMatch, hkeys, hp, ha]
  · simp [scoreJDMatch, hkeys, hp, ha]
    decide

/-- Witness for C5 at a concrete resume body containing "Python" but
not "AWS". -/
theorem jd_match_score_formula_witness :
    ("python" ∈ resumeTokens "Skills: Python, Django") ∧
    ("aws" ∉ resumeTokens "Skills: Python, Django") ∧
    (scoreJDMatch "Looking for a Python developer with AWS experience"
        "Skills: Python, Django").score = 50 :=
  ⟨by decide, by decide,
    (jd_match_score_formula "Skills: Python, Django" (by decide) (by decide)).2.2.2⟩

/-- C6: `record(newDocument)` pushes the current document onto the past
stack, sets current to the new document and clears the future stack;
consequently `canRedo()` is false after any `record`, in particular
after an `undo` immediately followed by `record(X)`. -/
theorem record_clears_future (h : VersionHistory) (d x : String) :
    ((h.record d).current = d) ∧
    ((h.record d).future = []) ∧
    ((h.record d).past.head? = some h.current) ∧
    (VersionHistory.canRedo (h.record d) = false) ∧
    (∀ p h', h.undo = some (p, h') → VersionHistory.canRedo (h'.record x) = false) := by
  refine ⟨rfl, rfl, ?_, rfl, fun p h' _ => rfl⟩
  show (List.take MAX_HISTORY (h.current :: h.past)).head? = some h.current
  rw [show MAX_HISTORY = 49 + 1 from rfl, List.take_succ_cons]
  rfl

/-- Witness for C6: a concrete undo followed by a record leaves redo
unavailable. -/
theorem record_clears_future_witness :
    VersionHistory.canRedo
      (VersionHistory.record { past := [], current := "a", future := ["b"] } "x") = false :=
  (record_clears_future { past := ["a"], current := "b", future := [] } "d" "x").2.2.2.2
    "a" { past := [], current := "a", future := ["b"] } rfl

/-- Helper: the payload of an entry of `enumFrom` is an element of the
underlying list. -/
theorem snd_mem_of_mem_enumFrom {α : Type} :
    ∀ (l : List α) (n : Nat) (p : Nat × α), p ∈ l.enumFrom n → p.2 ∈ l := by
  intro l
  induction l with
  | nil => intro n p hp; simp [List.enumFrom] at hp
  | cons a as ih =>
    intro n p hp
    simp only [List.enumFrom, List.mem_cons] at hp
    rcases hp with h | h
    · rw [h]; exact List.mem_cons_self a as
    · exact List.mem_cons_of_mem _ (ih _ _ h)

/-- C7: `parse` is total by construction, and a source none of whose
lines is a recognizable structural heading yields exactly one section
named "Full Document" whose content is the entire source. -/
theorem parse_total_full_document (source : String)
    (hnone : ∀ line ∈ splitLines source, sectionNameOf line = none) :
    parse source = [{ name := "Full Document", content := source, type := none,
                      start_line := some 0,
                      end_line := some ((splitLines source).length - 1),
                      preview := none }] := by
  have hfm : (splitLines source).enum.filterMap
      (fun p => (sectionNameOf p.2).map (fun n => (p.1, n))) = [] := by
    rw [List.filterMap_eq_nil_iff]
    intro p hp
    rw [hnone p.2 (snd_mem_of_mem_enumFrom _ 0 _ hp)]
    rfl
  simp only [parse, hfm]
  rfl

/-- Witness for C7 at a concrete heading-free source. -/
theorem parse_total_full_document_witness :
    parse "hello\nworld" = [{ name := "Full Document", content := "hello\nworld",
                              type := none, start_line := some 0,
                              end_line := some 1, preview := none }] :=
  parse_total_full_document "hello\nworld" (by decide)

/-- Helper: the job-description save handler never changes `canUndo`. -/
theorem handleSaveJD_canUndo (s : PageState) (v : Option String) :
    (handleSaveJobDescription s v).1.canUndo = s.canUndo := by
  simp only [handleSaveJobDescription]
  repeat' split
  all_goals rfl

/-- Helper: the job-description save handler never changes `canRedo`. -/
theorem handleSaveJD_canRedo (s : PageState) (v : Option String) :
    (handleSaveJobDescription s v).1.canRedo = s.canRedo := by
  simp only [handleSaveJobDescription]
  repeat' split
  all_goals rfl

/-- Helper: no page event changes `canUndo`. -/
theorem step_canUndo (e : PageEvent) (s : PageState) :
    (step e s).1.canUndo = s.canUndo := by
  cases e
  case saveJobDescription v => exact handleSaveJD_canUndo s v
  all_goals simp only [step]
  all_goals repeat' split
  all_goals rfl

/-- Helper: no page event changes `canRedo`. -/
theorem step_canRedo (e : PageEvent) (s : PageState) :
    (step e s).1.canRedo = s.canRedo := by
  cases e
  case saveJobDescription v => exact handleSaveJD_canRedo s v
  all_goals simp only [step]
  all_goals repeat' split
  all_goals rfl

/-- Helper: `canUndo = false` is invariant under any event sequence. -/
theorem foldl_canUndo (events : List PageEvent) :
    ∀ s : PageState, s.canUndo = false →
      (events.foldl (fun s e => (step e s).1) s).canUndo = false := by
  induction events with
  | nil => intro s h; exact h
  | cons e es ih =>
    intro s h
    exact ih _ (by rw [step_canUndo]; exact h)

/-- Helper: `canRedo = false` is invariant under any event sequence. -/
theorem foldl_canRedo (events : List PageEvent) :
    ∀ s : PageState, s.canRedo = false →
      (events.foldl (fun s e => (step e s).1) s).canRedo = false := by
  induction events with
  | nil => intro s h; exact h
  | cons e es ih =>
    intro s h
    exact ih _ (by rw [step_canRedo]; exact h)

/-- C8: the undo and redo controls of the builder page never change any
page state — they only emit a "not yet implemented" toast; the
`canUndo`/`canRedo` flags start false, are preserved by every page
event, stay false along every event sequence, and consequently the
sidebar's undo and redo buttons remain disabled for the entire
session. -/
theorem undo_redo_controls_frame (s : PageState) (e : PageEvent)
    (events : List PageEvent) :
    (step PageEvent.clickUndo s = (s, [Effect.toastInfo "Undo not yet implemented"])) ∧
    (step PageEvent.clickRedo s = (s, [Effect.toastInfo "Redo not yet implemented"])) ∧
    initialPageState.canUndo = false ∧
    initialPageState.canRedo = false ∧
    ((step e s).1.canUndo = s.canUndo) ∧
    ((step e s).1.canRedo = s.canRedo) ∧
    (runEvents events).canUndo = false ∧
    (runEvents events).canRedo = false ∧
    sidebarUndoDisabled (runEvents events) = true ∧
    sidebarRedoDisabled (runEvents events) = true := by
  refine ⟨rfl, rfl, rfl, rfl, step_canUndo e s, step_canRedo e s,
    foldl_canUndo events initialPageState rfl,
    foldl_canRedo events initialPageState rfl, ?_, ?_⟩
  · simp [sidebarUndoDisabled, runEvents, foldl_canUndo events initialPageState rfl]
  · simp [sidebarRedoDisabled, runEvents, foldl_canRedo events initialPageState rfl]

/-- C9: saving a job description whose trimmed input is empty shows an
error, issues no `setJobDescription` API call, and leaves the page
state — in particular the stored job description — unchanged. -/
theorem save_jd_rejects_blank_before_api (s : PageState) (verify : Option String)
    (hblank : jsTrim s.jobDescriptionInput = "") :
    ((handleSaveJobDescription s verify).2.filter Effect.isSetJD = []) ∧
    ((handleSaveJobDescription s verify).2.any Effect.isErrorToast = true) ∧
    ((handleSaveJobDescription s verify).1 = s) := by
  have hchars : trimChars s.jobDescriptionInput.data = [] := congrArg String.data hblank
  have h0 : wordCount s.jobDescriptionInput = 0 := by
    unfold wordCount
    rw [hchars]
    rfl
  unfold handleSaveJobDescription
  cases s.sessionId with
  | none => exact ⟨rfl, rfl, rfl⟩
  | some sid =>
    simp only [h0, hblank]
    exact ⟨rfl, rfl, rfl⟩

/-- Witness for C9 at a concrete whitespace-only input. -/
theorem save_jd_rejects_blank_before_api_witness :
    (jsTrim "   " = "") ∧
    ((handleSaveJobDescription
        { initialPageState with sessionId := some "s-1", jobDescriptionInput := "   " }
        none).2.filter Effect.isSetJD = []) ∧
    ((handleSaveJobDescription
        { initialPageState with sessionId := some "s-1", jobDescriptionInput := "   " }
        none).1 =
      { initialPageState with sessionId := some "s-1", jobDescriptionInput := "   " }) :=
  ⟨by decide,
    (save_jd_rejects_blank_before_api _ none (by decide)).1,
    (save_jd_rejects_blank_before_api _ none (by decide)).2.2⟩

/-- C10: for every JDMatch result the scoring modal displays exactly the
first 15 entries of the matched-keyword list and the first 10 entries of
the missing-keyword list, hence never more than 15 and 10 entries. -/
theorem modal_keyword_display_caps (s : ResumeScores) (jd : ATSJD)
    (h : s.ats_jd = some jd) :
    displayedMatchedKeywords s = jd.matched_keywords.take 15 ∧
    (displayedMatchedKeywords s).length ≤ 15 ∧
    displayedMissingKeywords s = jd.missing_keywords.take 10 ∧
    (displayedMissingKeywords s).length ≤ 10 := by
  have h1 : displayedMatchedKeywords s = jd.matched_keywords.take 15 := by
    simp only [displayedMatchedKeywords, h]
    split
    · rfl
    · next hlen =>
      cases hq : jd.matched_keywords with
      | nil => rfl
      | cons a l => rw [hq] at hlen; simp at hlen
  have h2 : displayedMissingKeywords s = jd.missing_keywords.take 10 := by
    simp only [displayedMissingKeywords, h]
    split
    · rfl
    · next hlen =>
      cases hq : jd.missing_keywords with
      | nil => rfl
      | cons a l => rw [hq] at hlen; simp at hlen
  refine ⟨h1, ?_, h2, ?_⟩
  · rw [h1, List.length_take]; exact Nat.min_le_left _ _
  · rw [h2, List.length_take]; exact Nat.min_le_left _ _

/-- Witness for C10 at a concrete score result. -/
theorem modal_keyword_display_caps_witness :
    displayedMatchedKeywords sampleScores = sampleATSJD.matched_keywords.take 15 ∧
    (displayedMatchedKeywords sampleScores).length ≤ 15 ∧
    displayedMissingKeywords sampleScores = sampleATSJD.missing_keywords.take 10 ∧
    (displayedMissingKeywords sampleScores).length ≤ 10 :=
  modal_keyword_display_caps sampleScores sampleATSJD rfl
